import Mathlib

/-
Verification of the weather MCP gateway (nevermined-io/weather-mcp-demo).

The definitions below are a shallow embedding of the TypeScript sources:
pure functions become Lean functions, the mutable session table becomes
explicit state passing, fallible code returns Except, and the outcomes of
outbound HTTP fetches are supplied as explicit environment values.
-/

namespace WeatherMcp

/-! ## Session table (model of the JavaScript Map used by SessionManager)

The table maps session identifiers to transport identifiers.  JavaScript
Map keys are unique; `tblInsert` and `tblErase` below realise `Map.set`,
`Map.delete` and `Map.get`/`Map.has` up to iteration order, which no code
in the repository observes. -/

/-- Lookup of a key in the table, model of `Map.get` (returns `undefined`,
here `none`, when the key is absent and never throws). -/
def tblLookup (tbl : List (String × Nat)) (k : String) : Option Nat :=
  match tbl with
  | [] => none
  | p :: rest => if p.1 = k then some p.2 else tblLookup rest k

/-- Model of `Map.has`. -/
def tblHas (tbl : List (String × Nat)) (k : String) : Bool :=
  (tblLookup tbl k).isSome

/-- Removal of every binding of a key, model of the effect of `Map.delete`. -/
def tblErase (tbl : List (String × Nat)) (k : String) : List (String × Nat) :=
  match tbl with
  | [] => []
  | p :: rest => if p.1 = k then tblErase rest k else p :: tblErase rest k

/-- Model of `Map.set`: binds the key to the value, replacing any previous
binding. -/
def tblInsert (tbl : List (String × Nat)) (k : String) (v : Nat) : List (String × Nat) :=
  (k, v) :: tblErase tbl k

theorem tblLookup_tblErase_self (tbl : List (String × Nat)) (k : String) :
    tblLookup (tblErase tbl k) k = none := by
  induction tbl with
  | nil => rfl
  | cons p rest ih =>
    by_cases h : p.1 = k
    · simpa [tblErase, h] using ih
    · simp [tblErase, tblLookup, h, ih]

theorem tblLookup_tblInsert_self (tbl : List (String × Nat)) (k : String) (v : Nat) :
    tblLookup (tblInsert tbl k v) k = some v := by
  simp [tblInsert, tblLookup]

/-! ## Session manager (src/server/high-level/session-manager.ts)

`StreamableHTTPServerTransport` instances are modelled by their identity
`tid` and their `sessionId` field, which is `none` until the transport
initialises a session.  The constructor of `SessionManager.createTransport`
wires two callbacks on the transport: `onsessioninitialized`, which is the
only place that writes the new session into the table, and `onclose`,
which deletes the session of the closing transport.  Those callbacks are
embedded as the explicit transition functions `onSessionInit` and
`onTransportClose`. -/

structure Transport where
  tid : Nat
  sessionId : Option String
deriving DecidableEq, Repr

structure SessionManager where
  transports : List (String × Nat)
deriving DecidableEq, Repr

/-- Embedding of `SessionManager.createTransport`: constructs a fresh
transport (identified by `tid`, with no session id yet) and returns it.
The body of `createTransport` performs no write to `this.transports`; the
write happens later, inside the `onsessioninitialized` callback. -/
def SessionManager.createTransport (sm : SessionManager) (tid : Nat) :
    Transport × SessionManager :=
  (⟨tid, none⟩, sm)

/-- Embedding of the `onsessioninitialized` callback installed by
`createTransport`: `this.transports.set(sessionId, transport)`. -/
def SessionManager.onSessionInit (sm : SessionManager) (t : Transport) (sid : String) :
    SessionManager :=
  ⟨tblInsert sm.transports sid t.tid⟩

/-- Embedding of the `transport.onclose` callback installed by
`createTransport`: deletes the binding of `transport.sessionId` when set. -/
def SessionManager.onTransportClose (sm : SessionManager) (t : Transport) :
    SessionManager :=
  match t.sessionId with
  | some sid => ⟨tblErase sm.transports sid⟩
  | none => sm

/-- Embedding of `SessionManager.getTransport`. -/
def SessionManager.getTransport (sm : SessionManager) (sid : String) : Option Nat :=
  tblLookup sm.transports sid

/-- Embedding of `SessionManager.hasSession`. -/
def SessionManager.hasSession (sm : SessionManager) (sid : String) : Bool :=
  tblHas sm.transports sid

/-- Embedding of `SessionManager.removeTransport`: `Map.delete` returns
whether a binding existed and removes it. -/
def SessionManager.removeTransport (sm : SessionManager) (sid : String) :
    Bool × SessionManager :=
  (tblHas sm.transports sid, ⟨tblErase sm.transports sid⟩)

/-- C7: `removeTransport id` reports exactly whether an entry for `id`
existed and removes it, so a second `removeTransport id` reports `false`;
and `getTransport` on an identifier with no entry returns `none` (the
embedding is total, so no exception can be raised). -/
theorem removeTransport_getTransport_spec (sm : SessionManager) (sid : String) :
    (sm.removeTransport sid).1 = sm.hasSession sid
    ∧ ((sm.removeTransport sid).2.removeTransport sid).1 = false
    ∧ ((sm.removeTransport sid).2).hasSession sid = false
    ∧ (sm.hasSession sid = false → sm.getTransport sid = none) := by
  refine ⟨rfl, ?_, ?_, ?_⟩
  · simp [SessionManager.removeTransport, SessionManager.hasSession, tblHas,
      tblLookup_tblErase_self]
  · simp [SessionManager.removeTransport, SessionManager.hasSession, tblHas,
      tblLookup_tblErase_self]
  · intro h
    simpa [SessionManager.hasSession, SessionManager.getTransport, tblHas,
      Option.isSome_iff_exists] using h

/-- C7 witness: the specification evaluated on a concrete one-entry table. -/
theorem removeTransport_getTransport_spec_witness :
    ((SessionManager.mk [("s1", 3)]).removeTransport "s1").1 = (SessionManager.mk [("s1", 3)]).hasSession "s1"
    ∧ (((SessionManager.mk [("s1", 3)]).removeTransport "s1").2.removeTransport "s1").1 = false
    ∧ (((SessionManager.mk [("s1", 3)]).removeTransport "s1").2).hasSession "s1" = false
    ∧ ((SessionManager.mk [("s1", 3)]).hasSession "s1" = false → (SessionManager.mk [("s1", 3)]).getTransport "s1" = none) :=
  removeTransport_getTransport_spec (SessionManager.mk [("s1", 3)]) "s1"

/-- C2 counterexample: `createTransport` returns without registering
anything.  On the empty manager the returned transport has no session
identifier yet and the session table is still empty, so `hasSession` is
`false` for the identifier the generator will later produce (indeed for
every identifier), contradicting the claim that the create operation
itself registers the session before returning. -/
theorem createTransport_registers_nothing_counterexample :
    ((SessionManager.mk []).createTransport 7).1.sessionId = none
    ∧ ((SessionManager.mk []).createTransport 7).2.transports = []
    ∧ ((SessionManager.mk []).createTransport 7).2.hasSession
        "3fa85f64-5717-4562-b3fc-2c963f66afa6" = false := by
  exact ⟨rfl, rfl, rfl⟩

/-- C2 amended: `createTransport` leaves the session table unchanged (the
transport carries no session identifier yet); the session becomes
registered when the transport fires the `onsessioninitialized` callback
with the generated identifier, immediately after which `hasSession` on
that identifier returns `true`. -/
theorem session_registered_on_init_callback (sm : SessionManager) (t : Transport)
    (sid : String) (tid : Nat) :
    (sm.createTransport tid).2 = sm
    ∧ (sm.onSessionInit t sid).hasSession sid = true := by
  refine ⟨rfl, ?_⟩
  simp [SessionManager.onSessionInit, SessionManager.hasSession, tblHas,
    tblLookup_tblInsert_self]

/-! ## High-level MCP routes (src/server/high-level/mcp.routes.ts)

Inbound HTTP messages are modelled by the parts the routes inspect: the
parsed JSON body (`none` when the body is absent or not an object), the
`authorization` header and the `mcp-session-id` header (`none` when the
header is absent or empty, matching the `|| undefined` / truthiness checks
of the source).  The `id` field of bodies is an `Option Int`
(`body?.id ?? null`). -/

structure McpBody where
  method : Option String
  id : Option Int
  /-- Whether the body passes the remaining schema checks of the SDK
  function `isInitializeRequest` beyond `method = "initialize"` (the SDK
  validates `params.protocolVersion` etc.; that validation is external to
  the repository and abstracted by this flag). -/
  initParamsOk : Bool
deriving DecidableEq, Repr

structure HLRequest where
  body : Option McpBody
  authHeader : Option String
  sessionHeader : Option String
deriving DecidableEq, Repr

/-- The `GATED_METHODS` set of mcp.routes.ts. -/
def GATED_METHODS : List String := ["tools/list", "resources/list", "prompts/list"]

/-- Embedding of `shouldGateRequest`: the body must be an object whose
`method` field is a string in `GATED_METHODS` or `"initialize"`. -/
def shouldGateRequest (body : Option McpBody) : Bool :=
  match body with
  | none => false
  | some b =>
    match b.method with
    | none => false
    | some m => GATED_METHODS.contains m || m = "initialize"

/-- Embedding of the SDK `isInitializeRequest` check used by the POST
handler. -/
def isInitRequest (body : Option McpBody) : Bool :=
  match body with
  | none => false
  | some b => b.method = some "initialize" && b.initParamsOk

/-- The `id` echoed by the gate branch: `req.body?.id ?? null`. -/
def bodyId (body : Option McpBody) : Option Int :=
  match body with
  | none => none
  | some b => b.id

/-- The `method` string read by the meta-authentication middleware (only
consulted when the request is gated, in which case it is a string). -/
def bodyMethod (body : Option McpBody) : String :=
  match body with
  | none => ""
  | some b => b.method.getD ""

/-- HTTP responses produced by the route handlers: a JSON-RPC error
envelope, a plain-text error, or the response produced by delegating to a
transport via `transport.handleRequest` (whose content is outside the
gateway and therefore abstract, identified by the dispatch choice). -/
inductive Dispatch
  | existing (sid : String) (tid : Nat)
  | fresh (tid : Nat)
deriving DecidableEq, Repr

inductive HLResponse
  | rpcError (status : Nat) (code : Int) (msg : String) (id : Option Int)
  | textError (status : Nat) (msg : String)
  | delegated (d : Dispatch)
deriving DecidableEq, Repr

/-- The JSON-RPC error code carried by a response, if any. -/
def HLResponse.errCode : HLResponse → Option Int
  | .rpcError _ c _ _ => some c
  | _ => none

structure PostOutcome where
  response : HLResponse
  manager : SessionManager
  dispatched : Option Dispatch
deriving DecidableEq, Repr

/-- Embedding of `createPostHandler`: authorization gating first, then
session resolution.  `freshTid` identifies the transport a new session
would be bound to. -/
def createPostHandler (sm : SessionManager) (freshTid : Nat) (req : HLRequest) :
    PostOutcome :=
  if shouldGateRequest req.body && req.authHeader.isNone then
    { response := .rpcError 200 (-32003)
        "Payment required: missing Authorization header" (bodyId req.body)
      manager := sm
      dispatched := none }
  else
    match req.sessionHeader with
    | some sid =>
      if sm.hasSession sid then
        let tid := (sm.getTransport sid).getD 0
        { response := .delegated (.existing sid tid)
          manager := sm
          dispatched := some (.existing sid tid) }
      else
        { response := .rpcError 400 (-32000)
            "Bad Request: No valid session ID provided" none
          manager := sm
          dispatched := none }
    | none =>
      if isInitRequest req.body then
        let p := sm.createTransport freshTid
        { response := .delegated (.fresh p.1.tid)
          manager := p.2
          dispatched := some (.fresh p.1.tid) }
      else
        { response := .rpcError 400 (-32000)
            "Bad Request: No valid session ID provided" none
          manager := sm
          dispatched := none }

/-- Request-scoped header bundle handed to the external meta
authentication (`extra.requestInfo.headers`). -/
structure HeadersExtra where
  authHeader : Option String
deriving DecidableEq, Repr

structure JsonRpcErr where
  code : Int
  msg : String
deriving DecidableEq, Repr

/-- Type of the `authenticateMeta` collaborator. -/
def AuthMeta : Type := HeadersExtra → String → Except JsonRpcErr Unit

/-- Modelled from the spec: `payments.mcp.authenticateMeta` of the
external payments library is not part of this repository.  Per the spec
(section 4.2 and the error table of section 7), absence of a bearer
credential yields the authorization-required error `-32003` without
consulting the backend, and a present credential is checked against the
billing backend, failing with payment-required semantics (also `-32003`)
when the credential is not accepted; `valid` abstracts the set of
credentials the backend accepts. -/
def specAuthenticateMeta (valid : List String) : AuthMeta :=
  fun extra _method =>
    match extra.authHeader with
    | none => .error ⟨-32003, "Payment required: missing Authorization header"⟩
    | some t => if valid.contains t then .ok () else .error ⟨-32003, "Payment required"⟩

/-- Embedding of the POST route installed by `setupHighLevelMcpRoutes`:
the meta-authentication middleware (when an `authenticateMeta` was
supplied) followed by `createPostHandler`. -/
def mcpPostRoute (am : Option AuthMeta) (sm : SessionManager) (freshTid : Nat)
    (req : HLRequest) : PostOutcome :=
  match am with
  | none => createPostHandler sm freshTid req
  | some f =>
    if shouldGateRequest req.body then
      match f ⟨req.authHeader⟩ (bodyMethod req.body) with
      | .ok _ => createPostHandler sm freshTid req
      | .error e =>
        { response := .rpcError 200 e.code e.msg (bodyId req.body)
          manager := sm
          dispatched := none }
    else createPostHandler sm freshTid req

/-- Embedding of `createGetHandler`: a session id that is missing or
unknown is rejected with HTTP 400 and a plain-text body; otherwise the
request is delegated to the transport of that session. -/
def createGetHandler (sm : SessionManager) (req : HLRequest) :
    HLResponse × Option Dispatch :=
  match req.sessionHeader with
  | none => (.textError 400 "Invalid or missing session ID", none)
  | some sid =>
    if sm.hasSession sid then
      let tid := (sm.getTransport sid).getD 0
      (.delegated (.existing sid tid), some (.existing sid tid))
    else (.textError 400 "Invalid or missing session ID", none)

/-- Embedding of `createDeleteHandler` (same body as the GET handler in
the source). -/
def createDeleteHandler (sm : SessionManager) (req : HLRequest) :
    HLResponse × Option Dispatch :=
  match req.sessionHeader with
  | none => (.textError 400 "Invalid or missing session ID", none)
  | some sid =>
    if sm.hasSession sid then
      let tid := (sm.getTransport sid).getD 0
      (.delegated (.existing sid tid), some (.existing sid tid))
    else (.textError 400 "Invalid or missing session ID", none)

/-! ## Low-level one-shot router (src/server/low-level/router.ts)

The router dispatches a single JSON-RPC body to flat name-to-handler maps.
Handlers are abstracted by numeric identifiers: the routing claims only
observe which handler, if any, gets invoked, so an invocation is recorded
as an event carrying the namespace, the registered name and the handler
identifier, and a success envelope carries the identifier of the handler
that produced it. -/

structure LowBody where
  method : Option String
  id : Option Int
  /-- The value of `body.params?.name` when it is a truthy string
  (`none` models an absent, empty or non-string name). -/
  paramsName : Option String
  /-- The value of `body.params?.uri` when it is a truthy string. -/
  paramsUri : Option String
deriving DecidableEq, Repr

structure LowRequest where
  httpMethod : String
  authHeader : Option String
  /-- The parsed body; `none` models a missing body or one that is not an
  object. -/
  body : Option LowBody
deriving DecidableEq, Repr

inductive LowResponse
  | errEnvelope (status : Nat) (code : Int) (msg : String)
  | rpcError (status : Nat) (code : Int) (msg : String) (id : Option Int)
  | initResult (id : Option Int)
  | rpcResult (handler : Nat) (id : Option Int)
deriving DecidableEq, Repr

/-- The JSON-RPC error code carried by a low-level response, if any. -/
def LowResponse.errCode : LowResponse → Option Int
  | .errEnvelope _ c _ => some c
  | .rpcError _ c _ _ => some c
  | _ => none

structure CallEvent where
  kind : String
  name : String
  handler : Nat
deriving DecidableEq, Repr

structure LowOutcome where
  response : LowResponse
  calls : List CallEvent
deriving DecidableEq, Repr

structure LowRegistry where
  tools : List (String × Nat)
  resources : List (String × Nat)
  prompts : List (String × Nat)
  authMeta : Option AuthMeta

/-- The local `gatedMethods` set of the low-level router. -/
def lowGatedMethods : List String :=
  ["initialize", "tools/list", "resources/list", "prompts/list"]

/-- Modelled from the platform WHATWG `URL` constructor used at
`new URL(body.params.uri)` (a JavaScript builtin, external to the
repository): construction succeeds exactly when the string starts with a
nonempty scheme — a leading ASCII letter followed by letters, digits,
`+`, `-` or `.` — terminated by a colon, and throws a `TypeError` with
message `"Invalid URL"` otherwise. -/
def isAsciiLetter (c : Char) : Bool :=
  (65 ≤ c.toNat && c.toNat ≤ 90) || (97 ≤ c.toNat && c.toNat ≤ 122)

def isAsciiDigit (c : Char) : Bool :=
  48 ≤ c.toNat && c.toNat ≤ 57

/-- The characters of a scheme candidate: the longest prefix before a
colon. -/
def schemeChars (cs : List Char) : List Char :=
  match cs with
  | [] => []
  | c :: rest => if c = ':' then [] else c :: schemeChars rest

def urlParseOk (s : String) : Bool :=
  let scheme := schemeChars s.data
  decide (0 < scheme.length) && decide (scheme.length < s.data.length)
    && isAsciiLetter (scheme.headD ' ')
    && scheme.all (fun c =>
        isAsciiLetter c || isAsciiDigit c || c = '+' || c = '-' || c = '.')

/-- Embedding of the dispatch section of `createLowLevelRouter.handle`
(after the method gate): the initialize short-circuit, then the
`tools/call`, `resources/read` and `prompts/call` branches in source
order, then the final method-not-found rejection.  The `resources/read`
branch ignores the content of the URI and always looks up the fixed name
`"weather.today"`; the URL constructor runs after the lookup and before
the handler invocation. -/
def lowDispatch (reg : LowRegistry) (b : LowBody) : LowOutcome :=
  if b.method = some "initialize" then
    ⟨.initResult b.id, []⟩
  else
    match b.method, b.paramsName, b.paramsUri with
    | some "tools/call", some n, _ =>
      (match tblLookup reg.tools n with
        | none => ⟨.errEnvelope 404 (-32601) "Tool not found", []⟩
        | some h => ⟨.rpcResult h b.id, [⟨"tool", n, h⟩]⟩)
    | some "resources/read", _, some uri =>
      (match tblLookup reg.resources "weather.today" with
        | none => ⟨.errEnvelope 404 (-32601) "Resource not found", []⟩
        | some h =>
          if urlParseOk uri then ⟨.rpcResult h b.id, [⟨"resource", "weather.today", h⟩]⟩
          else ⟨.errEnvelope 500 (-32603) "Invalid URL", []⟩)
    | some "prompts/call", some n, _ =>
      (match tblLookup reg.prompts n with
        | none => ⟨.errEnvelope 404 (-32601) "Prompt not found", []⟩
        | some h => ⟨.rpcResult h b.id, [⟨"prompt", n, h⟩]⟩)
    | _, _, _ => ⟨.errEnvelope 400 (-32601) "Method not found", []⟩

/-- Embedding of `createLowLevelRouter.handle`: non-POST and non-object
bodies are rejected, then gated methods pass through `authenticateMeta`
when one is registered, then the message is dispatched. -/
def lowLevelHandle (reg : LowRegistry) (req : LowRequest) : LowOutcome :=
  if !(req.httpMethod = "POST") then
    ⟨.errEnvelope 405 (-32600) "Only POST is supported", []⟩
  else
    match req.body with
    | none => ⟨.errEnvelope 400 (-32600) "Invalid request", []⟩
    | some b =>
      let gateFailure : Option JsonRpcErr :=
        match b.method, reg.authMeta with
        | some m, some f =>
          if lowGatedMethods.contains m then
            match f ⟨req.authHeader⟩ m with
            | .ok _ => none
            | .error e => some e
          else none
        | _, _ => none
      match gateFailure with
      | some e => ⟨.rpcError 200 e.code e.msg b.id, []⟩
      | none => lowDispatch reg b

/-! ## Theorems about the route gating and session resolution -/

/-- C1: an inbound POST whose method is gated (`initialize`,
`tools/list`, `resources/list`, `prompts/list`) and which carries no
Authorization header is answered with a JSON-RPC error of code exactly
`-32003`; the session table is left untouched, nothing is dispatched to a
transport, and — on the low-level router, whose credential check lives in
the spec-modelled external `authenticateMeta` — no capability handler is
invoked. -/
theorem gated_post_without_auth_rejected :
    (∀ (am : Option AuthMeta) (valid : List String) (sm : SessionManager)
        (freshTid : Nat) (req : HLRequest),
      (am = none ∨ am = some (specAuthenticateMeta valid)) →
      shouldGateRequest req.body = true →
      req.authHeader = none →
      (mcpPostRoute am sm freshTid req).response.errCode = some (-32003)
      ∧ (mcpPostRoute am sm freshTid req).manager = sm
      ∧ (mcpPostRoute am sm freshTid req).dispatched = none)
    ∧ (∀ (reg : LowRegistry) (valid : List String) (req : LowRequest)
        (b : LowBody) (m : String),
      reg.authMeta = some (specAuthenticateMeta valid) →
      req.httpMethod = "POST" →
      req.authHeader = none →
      req.body = some b →
      b.method = some m →
      lowGatedMethods.contains m = true →
      (lowLevelHandle reg req).response.errCode = some (-32003)
      ∧ (lowLevelHandle reg req).calls = []) := by
  constructor
  · intro am valid sm freshTid req ham hg ha
    rcases ham with rfl | rfl
    · simp [mcpPostRoute, createPostHandler, hg, ha, HLResponse.errCode]
    · simp [mcpPostRoute, createPostHandler, specAuthenticateMeta, hg, ha,
        HLResponse.errCode]
  · intro reg valid req b m ham hpost ha hb hm hgated
    have hmem : m ∈ lowGatedMethods := by simpa using hgated
    simp [lowLevelHandle, hpost, hb, hm, ham, hmem, specAuthenticateMeta, ha,
      LowResponse.errCode]

/-- C1 witness: a gated `tools/list` POST without credential on the
high-level route, and a gated `initialize` POST without credential on the
low-level router, both concrete. -/
theorem gated_post_without_auth_rejected_witness :
    ((mcpPostRoute none (SessionManager.mk []) 0
        ⟨some ⟨some "tools/list", some 1, false⟩, none, some "s"⟩).response.errCode
        = some (-32003)
      ∧ (mcpPostRoute none (SessionManager.mk []) 0
        ⟨some ⟨some "tools/list", some 1, false⟩, none, some "s"⟩).manager
        = SessionManager.mk []
      ∧ (mcpPostRoute none (SessionManager.mk []) 0
        ⟨some ⟨some "tools/list", some 1, false⟩, none, some "s"⟩).dispatched = none)
    ∧ ((lowLevelHandle ⟨[("weather.today", 4)], [], [], some (specAuthenticateMeta [])⟩
        ⟨"POST", none, some ⟨some "initialize", some 1, none, none⟩⟩).response.errCode
        = some (-32003)
      ∧ (lowLevelHandle ⟨[("weather.today", 4)], [], [], some (specAuthenticateMeta [])⟩
        ⟨"POST", none, some ⟨some "initialize", some 1, none, none⟩⟩).calls = []) :=
  ⟨gated_post_without_auth_rejected.1 none [] (SessionManager.mk []) 0
      ⟨some ⟨some "tools/list", some 1, false⟩, none, some "s"⟩ (Or.inl rfl)
      (by decide) rfl,
    gated_post_without_auth_rejected.2
      ⟨[("weather.today", 4)], [], [], some (specAuthenticateMeta [])⟩ []
      ⟨"POST", none, some ⟨some "initialize", some 1, none, none⟩⟩
      ⟨some "initialize", some 1, none, none⟩ "initialize" rfl rfl rfl rfl rfl
      (by decide)⟩

/-- C3 counterexample: the claim quantifies over every POST with an
unknown or missing session, but a gated method lacking the Authorization
header short-circuits at the gate with `-32003` even when its session id
is present but unknown, so the response is not the `-32000` envelope the
claim demands. -/
theorem unknown_session_gated_counterexample :
    (SessionManager.mk []).hasSession "zzz" = false
    ∧ (mcpPostRoute none (SessionManager.mk []) 0
        ⟨some ⟨some "tools/list", some 1, false⟩, none, some "zzz"⟩).response.errCode
        = some (-32003)
    ∧ ¬((mcpPostRoute none (SessionManager.mk []) 0
        ⟨some ⟨some "tools/list", some 1, false⟩, none, some "zzz"⟩).response.errCode
        = some (-32000)) := by
  refine ⟨rfl, rfl, ?_⟩
  decide

/-- C3 amended: for a POST that is not short-circuited by the
authorization gate (its method is not gated, or it carries a credential
the spec-modelled meta authentication accepts), a session id that is
present but unknown, or absent while the body is not an initialize
request, yields exactly the JSON-RPC error `-32000` with the
no-valid-session message, the session table is left unchanged and nothing
is dispatched. -/
theorem post_no_valid_session_rejected (am : Option AuthMeta) (valid : List String)
    (sm : SessionManager) (freshTid : Nat) (req : HLRequest)
    (ham : am = none ∨ am = some (specAuthenticateMeta valid))
    (hgate : shouldGateRequest req.body = true →
      ∃ t, req.authHeader = some t ∧ valid.contains t = true)
    (hsess : (∃ sid, req.sessionHeader = some sid ∧ sm.hasSession sid = false)
      ∨ (req.sessionHeader = none ∧ isInitRequest req.body = false)) :
    mcpPostRoute am sm freshTid req =
      ⟨.rpcError 400 (-32000) "Bad Request: No valid session ID provided" none,
        sm, none⟩ := by
  have hpost : createPostHandler sm freshTid req =
      ⟨.rpcError 400 (-32000) "Bad Request: No valid session ID provided" none,
        sm, none⟩ := by
    have hga : (shouldGateRequest req.body && req.authHeader.isNone) = false := by
      by_cases hg : shouldGateRequest req.body = true
      · obtain ⟨t, ht, _⟩ := hgate hg
        simp [hg, ht]
      · simp [Bool.not_eq_true] at hg
        simp [hg]
    rcases hsess with ⟨sid, hsid, hunknown⟩ | ⟨hsid, hninit⟩
    · simp [createPostHandler, hga, hsid, hunknown]
    · simp [createPostHandler, hga, hsid, hninit]
  rcases ham with rfl | rfl
  · simpa [mcpPostRoute] using hpost
  · by_cases hg : shouldGateRequest req.body = true
    · obtain ⟨t, ht, htv⟩ := hgate hg
      have hmem : t ∈ valid := by simpa using htv
      simp [mcpPostRoute, hg, ht, specAuthenticateMeta, hmem, hpost]
    · simp [Bool.not_eq_true] at hg
      simpa [mcpPostRoute, hg] using hpost

/-- C3 witness: a `tools/call` POST (not gated) with an unknown session
id on the empty session table. -/
theorem post_no_valid_session_rejected_witness :
    mcpPostRoute none (SessionManager.mk []) 0
        ⟨some ⟨some "tools/call", some 2, false⟩, none, some "zzz"⟩ =
      ⟨.rpcError 400 (-32000) "Bad Request: No valid session ID provided" none,
        SessionManager.mk [], none⟩ :=
  post_no_valid_session_rejected none [] (SessionManager.mk []) 0
    ⟨some ⟨some "tools/call", some 2, false⟩, none, some "zzz"⟩ (Or.inl rfl)
    (fun h => absurd h (by decide)) (Or.inl ⟨"zzz", rfl, rfl⟩)

/-- C5 counterexample: a GET with a present-but-unknown session id and a
DELETE with no session id are both rejected with an HTTP 400 plain-text
body, a response that carries no JSON-RPC error envelope at all — in
particular not the `-32000` envelope the claim asserts. -/
theorem get_missing_session_no_rpc_envelope_counterexample :
    (SessionManager.mk []).hasSession "zzz" = false
    ∧ (createGetHandler (SessionManager.mk []) ⟨none, none, some "zzz"⟩).1 =
        .textError 400 "Invalid or missing session ID"
    ∧ ((createGetHandler (SessionManager.mk []) ⟨none, none, some "zzz"⟩).1).errCode = none
    ∧ (createDeleteHandler (SessionManager.mk []) ⟨none, none, none⟩).1 =
        .textError 400 "Invalid or missing session ID"
    ∧ ((createDeleteHandler (SessionManager.mk []) ⟨none, none, none⟩).1).errCode = none :=
  ⟨rfl, rfl, rfl, rfl, rfl⟩

/-- C5 amended: a GET or DELETE whose session id is missing or unknown is
rejected — identically for the two verbs — with HTTP 400 and the
plain-text body `"Invalid or missing session ID"`, and nothing is
dispatched to a transport; unlike the POST path, no JSON-RPC `-32000`
error envelope is produced. -/
theorem get_delete_invalid_session_plain_rejection (sm : SessionManager)
    (req : HLRequest)
    (h : ∀ sid, req.sessionHeader = some sid → sm.hasSession sid = false) :
    createGetHandler sm req = (.textError 400 "Invalid or missing session ID", none)
    ∧ createDeleteHandler sm req =
        (.textError 400 "Invalid or missing session ID", none)
    ∧ createGetHandler sm req = createDeleteHandler sm req := by
  cases hs : req.sessionHeader with
  | none => exact ⟨by simp [createGetHandler, hs], by simp [createDeleteHandler, hs], by
      simp [createGetHandler, createDeleteHandler, hs]⟩
  | some sid =>
    have hu := h sid hs
    exact ⟨by simp [createGetHandler, hs, hu], by simp [createDeleteHandler, hs, hu], by
      simp [createGetHandler, createDeleteHandler, hs, hu]⟩

/-- C5 witness: the rejection evaluated on the empty table with an
unknown session id. -/
theorem get_delete_invalid_session_plain_rejection_witness :
    createGetHandler (SessionManager.mk []) ⟨none, none, some "nope"⟩ =
        (.textError 400 "Invalid or missing session ID", none)
    ∧ createDeleteHandler (SessionManager.mk []) ⟨none, none, some "nope"⟩ =
        (.textError 400 "Invalid or missing session ID", none)
    ∧ createGetHandler (SessionManager.mk []) ⟨none, none, some "nope"⟩ =
        createDeleteHandler (SessionManager.mk []) ⟨none, none, some "nope"⟩ :=
  get_delete_invalid_session_plain_rejection (SessionManager.mk [])
    ⟨none, none, some "nope"⟩
    (by intro sid hh; injection hh with hh2; subst hh2; rfl)

/-! ## Theorems about the stateless resources/read dispatch -/

/-- C10 counterexample: a `resources/read` request carrying the truthy
`params.uri` string `"foo"`, with a handler registered under
`weather.today`, is not dispatched to that handler: the URL constructor
rejects `"foo"` (no scheme) after the lookup and before the invocation,
so the router answers `-32603` and no call event is recorded —
contradicting the claim that every `resources/read` carrying a
`params.uri` is dispatched regardless of the content of the URI. -/
theorem resources_read_unparseable_uri_counterexample :
    lowLevelHandle ⟨[], [("weather.today", 42)], [], none⟩
        ⟨"POST", none, some ⟨some "resources/read", some 9, none, some "foo"⟩⟩ =
      ⟨.errEnvelope 500 (-32603) "Invalid URL", []⟩ := by
  decide

/-- C10 amended: every `resources/read` request carrying a `params.uri`
that the URL constructor accepts is dispatched to the resource handler
registered under the fixed name `weather.today` regardless of which
resource the URI names; a URI the URL constructor rejects yields `-32603`
without invoking any handler; and the resource-not-found branch
(`-32601`) is taken exactly when no handler is registered under
`weather.today`. -/
theorem resources_read_fixed_name_dispatch (reg : LowRegistry) (req : LowRequest)
    (b : LowBody) (uri : String)
    (hpost : req.httpMethod = "POST")
    (hb : req.body = some b)
    (hm : b.method = some "resources/read")
    (hu : b.paramsUri = some uri) :
    (∀ h, tblLookup reg.resources "weather.today" = some h →
      urlParseOk uri = true →
      lowLevelHandle reg req = ⟨.rpcResult h b.id, [⟨"resource", "weather.today", h⟩]⟩)
    ∧ (∀ h, tblLookup reg.resources "weather.today" = some h →
      urlParseOk uri = false →
      lowLevelHandle reg req = ⟨.errEnvelope 500 (-32603) "Invalid URL", []⟩)
    ∧ (tblLookup reg.resources "weather.today" = none →
      lowLevelHandle reg req = ⟨.errEnvelope 404 (-32601) "Resource not found", []⟩)
    ∧ ((lowLevelHandle reg req).response = .errEnvelope 404 (-32601) "Resource not found" →
      tblLookup reg.resources "weather.today" = none) := by
  have hnotgated : ("resources/read" ∈ lowGatedMethods) = False := by
    simp [lowGatedMethods]
  have hroute : lowLevelHandle reg req = lowDispatch reg b := by
    cases ham : reg.authMeta with
    | none => simp [lowLevelHandle, hpost, hb, hm, ham]
    | some f => simp [lowLevelHandle, hpost, hb, hm, ham, hnotgated]
  refine ⟨?_, ?_, ?_, ?_⟩
  · intro h hh hok
    cases hpn : b.paramsName with
    | none => simp [hroute, lowDispatch, hm, hpn, hu, hh, hok]
    | some n => simp [hroute, lowDispatch, hm, hpn, hu, hh, hok]
  · intro h hh hbad
    cases hpn : b.paramsName with
    | none => simp [hroute, lowDispatch, hm, hpn, hu, hh, hbad]
    | some n => simp [hroute, lowDispatch, hm, hpn, hu, hh, hbad]
  · intro hh
    cases hpn : b.paramsName with
    | none => simp [hroute, lowDispatch, hm, hpn, hu, hh]
    | some n => simp [hroute, lowDispatch, hm, hpn, hu, hh]
  · intro hresp
    cases hh : tblLookup reg.resources "weather.today" with
    | none => rfl
    | some h =>
      exfalso
      cases hok : urlParseOk uri with
      | false =>
        cases hpn : b.paramsName with
        | none => rw [hroute] at hresp; simp [lowDispatch, hm, hpn, hu, hh, hok] at hresp
        | some n => rw [hroute] at hresp; simp [lowDispatch, hm, hpn, hu, hh, hok] at hresp
      | true =>
        cases hpn : b.paramsName with
        | none => rw [hroute] at hresp; simp [lowDispatch, hm, hpn, hu, hh, hok] at hresp
        | some n => rw [hroute] at hresp; simp [lowDispatch, hm, hpn, hu, hh, hok] at hresp

/-- C10 witness: a concrete `resources/read` for the URI
`weather://today/Madrid` with a registered handler, dispatched to
`weather.today`. -/
theorem resources_read_fixed_name_dispatch_witness :
    lowLevelHandle ⟨[], [("weather.today", 42)], [], none⟩
        ⟨"POST", none, some ⟨some "resources/read", some 3, none,
          some "weather://today/Madrid"⟩⟩ =
      ⟨.rpcResult 42 (some 3), [⟨"resource", "weather.today", 42⟩]⟩ :=
  (resources_read_fixed_name_dispatch ⟨[], [("weather.today", 42)], [], none⟩
      ⟨"POST", none, some ⟨some "resources/read", some 3, none,
        some "weather://today/Madrid"⟩⟩
      ⟨some "resources/read", some 3, none, some "weather://today/Madrid"⟩
      "weather://today/Madrid" rfl rfl rfl rfl).1 42 rfl (by decide)

/-! ## Dynamic pricing (src/mcp/handlers/weather-tool.handler.ts) -/

/-- The credits context handed to a pricing function by the payments
library: the handler arguments, the handler result and per-request
metadata, reduced to the fields the repository mentions. -/
structure CreditsContext where
  argsCity : Option String
  resultText : Option String
  logicalUrl : String
deriving DecidableEq, Repr

/-- Embedding of `weatherToolCreditsCalculator`.  The source computes
`BigInt(5 + Math.floor(Math.random() * 10))`: it ignores the context
entirely and adds a fresh random draw.  `randomDraw` makes the value of
`Math.floor(Math.random() * 10)` for the call explicit (it ranges over
`0..9`). -/
def weatherToolCreditsCalculator (_ctx : CreditsContext) (randomDraw : Nat) : Nat :=
  5 + randomDraw

/-- C4: evaluating the pricing function twice on the identical context
yields different amounts as soon as the two random draws differ (here 5
versus 6), so the function is neither pure in the claimed sense nor
deterministic — contradicting the claim, the spec and the doc comment of
the function itself, which promises a deterministic context-derived cost. -/
theorem credits_calculator_nondeterministic :
    weatherToolCreditsCalculator ⟨some "Madrid", none, "mcp://weather-mcp/tools/weather.today"⟩ 0
      ≠ weatherToolCreditsCalculator ⟨some "Madrid", none, "mcp://weather-mcp/tools/weather.today"⟩ 1 := by
  decide

/-! ## Weather service (src/services/weather.service.ts)

The outbound `fetch` calls are modelled by an explicit environment: each
fetch either throws, or yields a response with an `ok` flag, a status and
its parsed JSON payload.  Numeric weather fields are modelled by `Int`
(no claim performs floating-point arithmetic on them).  Failures are the
error taxonomy of the service: the plain `Error` thrown by
`sanitizeCity`, `CityNotFoundError` and `DownstreamError`. -/

inductive WeatherFailure
  | invalidCity (msg : String)
  | cityNotFound (city : String)
  | downstream (msg : String)
deriving DecidableEq, Repr

/-- Modelled from the platform `String.prototype.trim` used by
`sanitizeCity` (a JavaScript builtin): strips leading and trailing
whitespace, restricted here to the ASCII whitespace forms. -/
def isJsWhitespace (c : Char) : Bool :=
  c = ' ' || c = '\t' || c = '\n' || c = '\r'

def dropLeadingWs (cs : List Char) : List Char :=
  match cs with
  | [] => []
  | c :: rest => if isJsWhitespace c then dropLeadingWs rest else c :: rest

def jsTrim (s : String) : String :=
  String.mk (dropLeadingWs ((dropLeadingWs s.data.reverse).reverse))

/-- Embedding of `sanitizeCity`: trims, then rejects trimmed lengths
outside 2..80 with a plain error. -/
def sanitizeCity (rawCity : String) : Except WeatherFailure String :=
  let trimmed := jsTrim rawCity
  if trimmed.length < 2 ∨ trimmed.length > 80 then
    .error (.invalidCity "City must be between 2 and 80 characters long")
  else .ok trimmed

/-- Outcome of one outbound fetch: the call throws, or returns a response
whose body parses to `α`. -/
inductive FetchOutcome (α : Type)
  | thrown
  | resp (ok : Bool) (status : Nat) (data : α)
deriving DecidableEq, Repr

/-- One geocoding hit, as read from `data.results[0]`. -/
structure GeoResult where
  name : String
  country : Option String
  latitude : Int
  longitude : Int
  timezone : Option String
deriving DecidableEq, Repr

/-- The geocoding payload: `results` is `none` when the field is missing
or not an array. -/
structure GeoData where
  results : Option (List GeoResult)
deriving DecidableEq, Repr

/-- The `daily` block of the forecast payload; each series is `none` when
missing or not an array. -/
structure DailyData where
  tmax : Option (List Int)
  tmin : Option (List Int)
  precip : Option (List Int)
deriving DecidableEq, Repr

/-- The forecast payload. -/
structure ForecastData where
  timezone : Option String
  daily : Option DailyData
  currentWeathercode : Option Int
deriving DecidableEq, Repr

/-- The environment of one `getTodayWeather` run: the outcome of the
geocoding fetch (`data` is `none` when the parsed body is falsy), the
outcome of the forecast fetch, and the clock reading serialised by
`new Date().toISOString()`. -/
structure FetchEnv where
  geo : FetchOutcome (Option GeoData)
  forecast : FetchOutcome ForecastData
  nowIso : String
deriving DecidableEq, Repr

structure GeoOk where
  name : String
  country : Option String
  latitude : Int
  longitude : Int
  timezone : Option String
deriving DecidableEq, Repr

/-- Embedding of `geocodeCity`. -/
def geocodeCity (env : FetchEnv) (city : String) : Except WeatherFailure GeoOk :=
  match sanitizeCity city with
  | .error e => .error e
  | .ok q =>
    match env.geo with
    | .thrown => .error (.downstream "Failed to reach Open-Meteo geocoding API")
    | .resp ok status data =>
      if !ok then .error (.downstream ("Geocoding API returned HTTP " ++ toString status))
      else
        match data with
        | none => .error (.cityNotFound q)
        | some d =>
          match d.results with
          | none => .error (.cityNotFound q)
          | some [] => .error (.cityNotFound q)
          | some (first :: _) =>
            .ok ⟨first.name, first.country, first.latitude, first.longitude,
              first.timezone⟩

/-- Embedding of `weatherCodeToText`. -/
def weatherCodeToText (code : Option Int) : Option String :=
  match code with
  | none => none
  | some c =>
    some (if c = 0 then "Clear sky"
      else if c = 1 then "Mainly clear"
      else if c = 2 then "Partly cloudy"
      else if c = 3 then "Overcast"
      else if c = 45 then "Fog"
      else if c = 48 then "Depositing rime fog"
      else if c = 51 then "Light drizzle"
      else if c = 53 then "Moderate drizzle"
      else if c = 55 then "Dense drizzle"
      else if c = 56 then "Light freezing drizzle"
      else if c = 57 then "Dense freezing drizzle"
      else if c = 61 then "Slight rain"
      else if c = 63 then "Moderate rain"
      else if c = 65 then "Heavy rain"
      else if c = 66 then "Light freezing rain"
      else if c = 67 then "Heavy freezing rain"
      else if c = 71 then "Slight snow fall"
      else if c = 73 then "Moderate snow fall"
      else if c = 75 then "Heavy snow fall"
      else if c = 77 then "Snow grains"
      else if c = 80 then "Slight rain showers"
      else if c = 81 then "Moderate rain showers"
      else if c = 82 then "Violent rain showers"
      else if c = 85 then "Slight snow showers"
      else if c = 86 then "Heavy snow showers"
      else if c = 95 then "Thunderstorm"
      else if c = 96 then "Thunderstorm with slight hail"
      else if c = 99 then "Thunderstorm with heavy hail"
      else "Unknown")

/-- The record returned by `getTodayWeather`, with exactly the fields of
the `TodayWeather` type of the source. -/
structure TodayWeather where
  city : String
  country : Option String
  latitude : Int
  longitude : Int
  timezone : String
  updatedAt : String
  tmaxC : Option Int
  tminC : Option Int
  precipitationMm : Option Int
  weatherCode : Option Int
  weatherText : Option String
deriving DecidableEq, Repr

def firstOfSeries (series : Option (List Int)) : Option Int :=
  match series with
  | some (x :: _) => some x
  | _ => none

/-- Embedding of `getTodayWeather`: geocode, then fetch the forecast,
then assemble the record. -/
def getTodayWeather (env : FetchEnv) (city : String) :
    Except WeatherFailure TodayWeather :=
  match geocodeCity env city with
  | .error e => .error e
  | .ok geo =>
    match env.forecast with
    | .thrown => .error (.downstream "Failed to reach Open-Meteo forecast API")
    | .resp ok status data =>
      if !ok then .error (.downstream ("Forecast API returned HTTP " ++ toString status))
      else
        let tz := data.timezone.getD (geo.timezone.getD "unknown")
        let daily := data.daily.getD ⟨none, none, none⟩
        let code := data.currentWeathercode
        .ok ⟨geo.name, geo.country, geo.latitude, geo.longitude, tz, env.nowIso,
          firstOfSeries daily.tmax, firstOfSeries daily.tmin,
          firstOfSeries daily.precip, code, weatherCodeToText code⟩

/-! ## Capability handlers (src/mcp/handlers) -/

def numFieldText : Option Int → String
  | some n => toString n
  | none => "n/a"

/-- The text summary assembled by the weather tool handler. -/
def summaryText (w : TodayWeather) : String :=
  "Weather for " ++ w.city ++ ", " ++ w.country.getD "" ++ " (tz: " ++ w.timezone
    ++ ")\n" ++ "High: " ++ numFieldText w.tmaxC ++ "°C, Low: "
    ++ numFieldText w.tminC ++ "°C, " ++ "Precipitation: "
    ++ numFieldText w.precipitationMm ++ "mm, " ++ "Conditions: "
    ++ w.weatherText.getD "n/a"

/-- Result of a successful tool call: the text content item and the
resource link item (the percent-encoding of the city by
`encodeURIComponent` is abstracted as the identity; no claim observes the
escaping). -/
structure ToolCallResult where
  text : String
  linkUri : String
  linkName : String
deriving DecidableEq, Repr

/-- Embedding of `weatherToolHandler` (the raw handler, before paywall
protection): sanitize, fetch, then build the content items. -/
def weatherToolHandler (env : FetchEnv) (city : String) :
    Except WeatherFailure ToolCallResult :=
  match sanitizeCity city with
  | .error e => .error e
  | .ok sanitized =>
    match getTodayWeather env sanitized with
    | .error e => .error e
    | .ok w =>
      .ok ⟨summaryText w, "weather://today/" ++ w.city, "weather today " ++ w.city⟩

/-- The `variables.city` value handed to a resource handler by the
template matcher: a string or an array of strings. -/
inductive CityVariable
  | str (s : String)
  | list (xs : List String)
deriving DecidableEq, Repr

/-- Result of a successful resource read (the `JSON.stringify`
serialisation of the weather record is abstracted by carrying the record
itself). -/
structure ResourceReadResult where
  uri : String
  mimeType : String
  weather : TodayWeather
deriving DecidableEq, Repr

/-- Embedding of `weatherResourceHandler`: picks the first element of an
array-valued variable, percent-decodes (`decodeURIComponent` is modelled
as the identity at this interface boundary: the claims quantify directly
over the decoded value), sanitizes and fetches. -/
def weatherResourceHandler (env : FetchEnv) (uriHref : String)
    (cityVar : CityVariable) : Except WeatherFailure ResourceReadResult :=
  let cityParam := match cityVar with
    | .str s => s
    | .list xs => xs.headD "undefined"
  let decodedCity := cityParam
  match sanitizeCity decodedCity with
  | .error e => .error e
  | .ok sanitized =>
    match getTodayWeather env sanitized with
    | .error e => .error e
    | .ok w => .ok ⟨uriHref, "application/json", w⟩

/-- Embedding of `weatherPromptHandler`: returns the guidance message
text, after sanitizing the city. -/
def weatherPromptHandler (city : String) : Except WeatherFailure String :=
  match sanitizeCity city with
  | .error e => .error e
  | .ok s =>
    .ok ("Please call the tool weather.today with \x7b \"city\": \"" ++ s
      ++ "\" \x7d")

/-! ## Theorems about the weather service error taxonomy -/

/-- Condition under which the geocoding fetch succeeded but its payload
contains no results: falsy body, missing or non-array `results`, or an
empty `results` array. -/
def geoNoResults (env : FetchEnv) : Bool :=
  match env.geo with
  | .resp true _ none => true
  | .resp true _ (some d) =>
    (match d.results with
      | none => true
      | some [] => true
      | some (_ :: _) => false)
  | _ => false

/-- Condition under which the geocoding fetch itself failed: the fetch
threw or the response has a non-OK status. -/
def geoFetchBad (env : FetchEnv) : Bool :=
  match env.geo with
  | .thrown => true
  | .resp ok _ _ => !ok

/-- Condition under which the forecast fetch failed. -/
def forecastFetchBad (env : FetchEnv) : Bool :=
  match env.forecast with
  | .thrown => true
  | .resp ok _ _ => !ok

/-- C6 counterexample: the claim quantifies over every city input, but an
input whose trimmed form is shorter than 2 characters (here `"x"`) makes
`getTodayWeather` fail with the plain validation error thrown by
`sanitizeCity` before any fetch — even in an environment where the
geocoding response contains no results, the failure is neither the
not-found condition nor the downstream condition nor a success record. -/
theorem weather_invalid_city_counterexample :
    geoNoResults ⟨.resp true 200 (some ⟨some []⟩),
        .resp true 200 ⟨some "UTC", some ⟨some [30], some [15], some [0]⟩, some 3⟩,
        "2026-10-12T00:00:00.000Z"⟩ = true
    ∧ getTodayWeather ⟨.resp true 200 (some ⟨some []⟩),
        .resp true 200 ⟨some "UTC", some ⟨some [30], some [15], some [0]⟩, some 3⟩,
        "2026-10-12T00:00:00.000Z"⟩ "x" =
      .error (.invalidCity "City must be between 2 and 80 characters long")
    ∧ getTodayWeather ⟨.resp true 200 (some ⟨some []⟩),
        .resp true 200 ⟨some "UTC", some ⟨some [30], some [15], some [0]⟩, some 3⟩,
        "2026-10-12T00:00:00.000Z"⟩ "x" ≠ .error (.cityNotFound "x") := by
  refine ⟨rfl, rfl, ?_⟩
  intro h
  exact absurd (Except.error.inj h) (by decide)

/-- C6 amended: for every city input accepted by `sanitizeCity` (trimmed
length between 2 and 80), `getTodayWeather` fails with the not-found
condition for the sanitized city exactly when the geocoding fetch
succeeds but its payload contains no results; it fails with the
downstream condition exactly when the geocoding fetch throws or returns a
non-OK status, or the geocoding produced a result and the forecast fetch
throws or returns a non-OK status; and in every other case it returns a
`TodayWeather` record (whose type carries exactly the fields city,
country, latitude, longitude, timezone, updatedAt, tmaxC, tminC,
precipitationMm, weatherCode, weatherText). -/
theorem getTodayWeather_error_classification (env : FetchEnv) (city : String)
    (h2 : 2 ≤ (jsTrim city).length) (h80 : (jsTrim city).length ≤ 80) :
    (getTodayWeather env city = .error (.cityNotFound (jsTrim city)) ↔
      geoNoResults env = true)
    ∧ ((∃ m, getTodayWeather env city = .error (.downstream m)) ↔
      (geoFetchBad env = true ∨
        (geoNoResults env = false ∧ forecastFetchBad env = true)))
    ∧ ((∃ w, getTodayWeather env city = .ok w) ↔
      (geoFetchBad env = false ∧ geoNoResults env = false ∧
        forecastFetchBad env = false)) := by
  have hs : sanitizeCity city = .ok (jsTrim city) := by
    have hcond : ¬((jsTrim city).length < 2 ∨ (jsTrim city).length > 80) := by omega
    simp [sanitizeCity, hcond]
  rcases env with ⟨geo, fc, now⟩
  rcases geo with _ | ⟨gok, gstatus, gdata⟩
  · simp [getTodayWeather, geocodeCity, hs, geoNoResults, geoFetchBad,
      forecastFetchBad]
  · cases gok with
    | false =>
      simp [getTodayWeather, geocodeCity, hs, geoNoResults, geoFetchBad,
        forecastFetchBad]
    | true =>
      rcases gdata with _ | ⟨results⟩
      · simp [getTodayWeather, geocodeCity, hs, geoNoResults, geoFetchBad,
          forecastFetchBad]
      · rcases results with _ | ⟨_ | ⟨first, rest⟩⟩
        · simp [getTodayWeather, geocodeCity, hs, geoNoResults, geoFetchBad,
            forecastFetchBad]
        · simp [getTodayWeather, geocodeCity, hs, geoNoResults, geoFetchBad,
            forecastFetchBad]
        · rcases fc with _ | ⟨fok, fstatus, fdata⟩
          · simp [getTodayWeather, geocodeCity, hs, geoNoResults, geoFetchBad,
              forecastFetchBad]
          · cases fok with
            | false =>
              simp [getTodayWeather, geocodeCity, hs, geoNoResults, geoFetchBad,
                forecastFetchBad]
            | true =>
              simp [getTodayWeather, geocodeCity, hs, geoNoResults, geoFetchBad,
                forecastFetchBad]

/-- C6 witness: a well-formed environment and the city `"Madrid"` produce
a success record. -/
theorem getTodayWeather_error_classification_witness :
    ∃ w, getTodayWeather ⟨.resp true 200
        (some ⟨some [⟨"Madrid", some "Spain", 40, -3, some "Europe/Madrid"⟩]⟩),
        .resp true 200 ⟨some "Europe/Madrid", some ⟨some [30], some [15], some [0]⟩, some 3⟩,
        "2026-10-12T00:00:00.000Z"⟩ "Madrid" = .ok w :=
  (getTodayWeather_error_classification ⟨.resp true 200
      (some ⟨some [⟨"Madrid", some "Spain", 40, -3, some "Europe/Madrid"⟩]⟩),
      .resp true 200 ⟨some "Europe/Madrid", some ⟨some [30], some [15], some [0]⟩, some 3⟩,
      "2026-10-12T00:00:00.000Z"⟩ "Madrid" (by decide) (by decide)).2.2.mpr
    ⟨rfl, rfl, rfl⟩

/-- C9: `sanitizeCity` returns the trimmed input exactly when the trimmed
length lies in 2..80 and fails with the plain validation error otherwise;
consequently an input that satisfies the declared 2-to-80-character
schema on its raw length but trims below 2 characters is rejected with
that validation error by the tool, resource and prompt handlers alike —
for every fetch environment, so no lookup can have occurred. -/
theorem sanitizeCity_spec_and_capability_rejection :
    (∀ s : String,
      (sanitizeCity s = .ok (jsTrim s) ↔
        2 ≤ (jsTrim s).length ∧ (jsTrim s).length ≤ 80)
      ∧ ((jsTrim s).length < 2 ∨ 80 < (jsTrim s).length →
        sanitizeCity s =
          .error (.invalidCity "City must be between 2 and 80 characters long")))
    ∧ (∀ (env : FetchEnv) (s uriHref : String),
      2 ≤ s.length → s.length ≤ 80 → (jsTrim s).length < 2 →
      weatherToolHandler env s =
        .error (.invalidCity "City must be between 2 and 80 characters long")
      ∧ weatherResourceHandler env uriHref (.str s) =
        .error (.invalidCity "City must be between 2 and 80 characters long")
      ∧ weatherPromptHandler s =
        .error (.invalidCity "City must be between 2 and 80 characters long")) := by
  constructor
  · intro s
    by_cases h : (jsTrim s).length < 2 ∨ (jsTrim s).length > 80
    · refine ⟨?_, fun _ => by simp [sanitizeCity, h]⟩
      simp only [sanitizeCity, if_pos h]
      constructor
      · intro hcon; cases hcon
      · intro hcon; omega
    · refine ⟨?_, fun hcon => by omega⟩
      simp only [sanitizeCity, if_neg h]
      constructor
      · intro _; omega
      · intro _; trivial
  · intro env s uriHref _ _ hshort
    have hserr : sanitizeCity s =
        .error (.invalidCity "City must be between 2 and 80 characters long") := by
      have h : (jsTrim s).length < 2 ∨ (jsTrim s).length > 80 := Or.inl hshort
      simp [sanitizeCity, h]
    exact ⟨by simp [weatherToolHandler, hserr],
      by simp [weatherResourceHandler, hserr],
      by simp [weatherPromptHandler, hserr]⟩

/-- C9 witness: the input `" a "` has raw length 3 (schema-valid) but
trims to a single character and is rejected by all three capability
handlers. -/
theorem sanitizeCity_spec_and_capability_rejection_witness :
    2 ≤ (" a " : String).length ∧ (" a " : String).length ≤ 80
    ∧ (jsTrim " a ").length < 2
    ∧ weatherToolHandler ⟨.thrown, .thrown, "t"⟩ " a " =
      .error (.invalidCity "City must be between 2 and 80 characters long")
    ∧ weatherResourceHandler ⟨.thrown, .thrown, "t"⟩ "weather://today/%20a%20"
        (.str " a ") =
      .error (.invalidCity "City must be between 2 and 80 characters long")
    ∧ weatherPromptHandler " a " =
      .error (.invalidCity "City must be between 2 and 80 characters long") := by
  refine ⟨by decide, by decide, by decide, ?_, ?_, ?_⟩
  · exact (sanitizeCity_spec_and_capability_rejection.2 ⟨.thrown, .thrown, "t"⟩
      " a " "weather://today/%20a%20" (by decide) (by decide) (by decide)).1
  · exact (sanitizeCity_spec_and_capability_rejection.2 ⟨.thrown, .thrown, "t"⟩
      " a " "weather://today/%20a%20" (by decide) (by decide) (by decide)).2.1
  · exact (sanitizeCity_spec_and_capability_rejection.2 ⟨.thrown, .thrown, "t"⟩
      " a " "weather://today/%20a%20" (by decide) (by decide) (by decide)).2.2

/-! ## Metering wrapper (authorize, invoke, redeem) -/

/-- The balance information returned by the authorization check. -/
structure AuthBalance where
  agentRequestId : Nat
  isSubscriber : Bool
deriving DecidableEq, Repr

/-- A credits policy: a fixed non-negative amount, or a dynamic function
of the invocation context (arguments and handler result). -/
inductive CreditsPolicy (α ρ : Type)
  | fixed (amount : Nat)
  | dynamic (f : α → ρ → Nat)

/-- Price resolution for a policy, given the arguments and the handler
result. -/
def resolveAmount {α ρ : Type} (p : CreditsPolicy α ρ) (args : α) (r : ρ) : Nat :=
  match p with
  | .fixed a => a
  | .dynamic f => f args r

/-- Observable outcome of one metered invocation: the value returned to
the caller, how many times the raw handler ran, how many redemption
calls were made, and the redemption failures surfaced to the
observability channel. -/
structure PaywallOutcome (ρ : Type) where
  result : Except JsonRpcErr ρ
  handlerRuns : Nat
  redeemCalls : Nat
  redeemFailures : List String

/-- Modelled from the spec: `payments.mcp.withPaywall` of the external
payments library is not part of this repository; this definition follows
the authorize-invoke-redeem protocol of the spec (section 4.4).  Steps:
missing credential fails with `-32003` before anything runs; the
authorization check runs once and a failure, or a non-subscriber
balance, fails with `-32003` without running the handler; the raw
handler runs exactly once and its failure propagates with no redemption;
after a success the price is resolved and redemption is attempted once —
a redemption failure is recorded on the observability channel while the
handler result is still returned unchanged. -/
def withPaywall {α ρ : Type}
    (authorize : String → Except JsonRpcErr AuthBalance)
    (handler : α → Except JsonRpcErr ρ)
    (credits : CreditsPolicy α ρ)
    (redeem : Nat → Nat → Except String Unit)
    (authHeader : Option String) (args : α) : PaywallOutcome ρ :=
  match authHeader with
  | none => ⟨.error ⟨-32003, "Authorization required"⟩, 0, 0, []⟩
  | some cred =>
    match authorize cred with
    | .error e => ⟨.error e, 0, 0, []⟩
    | .ok bal =>
      if !bal.isSubscriber then ⟨.error ⟨-32003, "Payment required"⟩, 0, 0, []⟩
      else
        match handler args with
        | .error e => ⟨.error e, 1, 0, []⟩
        | .ok r =>
          match redeem bal.agentRequestId (resolveAmount credits args r) with
          | .ok _ => ⟨.ok r, 1, 1, []⟩
          | .error m => ⟨.ok r, 1, 1, [m]⟩

/-- C8: when the raw handler succeeds and the subsequent credit
redemption fails, the caller still receives the original successful
result unchanged, the handler ran exactly once (it is never re-run), the
redemption was attempted exactly once, and the failure is surfaced to
the observability channel rather than to the caller. -/
theorem paywall_redeem_failure_preserves_result {α ρ : Type}
    (authorize : String → Except JsonRpcErr AuthBalance)
    (handler : α → Except JsonRpcErr ρ)
    (credits : CreditsPolicy α ρ)
    (redeem : Nat → Nat → Except String Unit)
    (cred : String) (args : α) (bal : AuthBalance) (r : ρ) (m : String)
    (hauth : authorize cred = .ok bal)
    (hsub : bal.isSubscriber = true)
    (hrun : handler args = .ok r)
    (hredeem : redeem bal.agentRequestId (resolveAmount credits args r) = .error m) :
    (withPaywall authorize handler credits redeem (some cred) args).result = .ok r
    ∧ (withPaywall authorize handler credits redeem (some cred) args).handlerRuns = 1
    ∧ (withPaywall authorize handler credits redeem (some cred) args).redeemCalls = 1
    ∧ (withPaywall authorize handler credits redeem (some cred) args).redeemFailures
      = [m] := by
  simp [withPaywall, hauth, hsub, hrun, hredeem]

/-- C8 witness: concrete collaborators in which authorization accepts,
the handler succeeds with `6`, and redemption fails. -/
theorem paywall_redeem_failure_preserves_result_witness :
    (withPaywall (fun _ => .ok ⟨11, true⟩) (fun n => .ok (n + 1))
        (.fixed 3) (fun _ _ => .error "redeem failed") (some "token") 5).result
      = .ok 6
    ∧ (withPaywall (fun _ => .ok ⟨11, true⟩) (fun n => .ok (n + 1))
        (.fixed 3) (fun _ _ => .error "redeem failed") (some "token") 5).handlerRuns
      = 1
    ∧ (withPaywall (fun _ => .ok ⟨11, true⟩) (fun n => .ok (n + 1))
        (.fixed 3) (fun _ _ => .error "redeem failed") (some "token") 5).redeemCalls
      = 1
    ∧ (withPaywall (fun _ => .ok ⟨11, true⟩) (fun n => .ok (n + 1))
        (.fixed 3) (fun _ _ => .error "redeem failed") (some "token") 5).redeemFailures
      = ["redeem failed"] :=
  paywall_redeem_failure_preserves_result (fun _ => .ok ⟨11, true⟩)
    (fun n => .ok (n + 1)) (.fixed 3) (fun _ _ => .error "redeem failed")
    "token" 5 ⟨11, true⟩ 6 "redeem failed" rfl rfl rfl rfl

end WeatherMcp
